import Mathlib

/-!
Verification of the feature navigation engine of the Arcpy repository.

The two real implementations are embedded here:
* `FeatureNavigator` from navigateLayerArcGISPro.py (record store with an
  identifier index, cursor navigation, attribute filter), and
* `NavigationTool` from navigateLayerArcMap.py (record list and cursor only).

External effects (panning the view, printing, message boxes) carry no state
that the claims mention; each method is embedded as a function from the
navigator state (and its arguments) to an outcome paired with the state after
the call.  The outcome distinguishes the normal-return path, the
caught-error/early-return path (the Python methods print a message and return
False or None), and an uncaught exception escaping the method.
-/

/-- A runtime value as stored in an attribute map or passed to the filter:
the scripts only ever store integers, but callers may pass strings, and
Python equality between an integer and a string is False, never an error. -/
inductive Value where
  | intV : Int → Value
  | strV : String → Value
deriving DecidableEq, Repr

/-- One row yielded by the data source cursor: a nullable integer identifier
(field OID@) and a nullable opaque geometry (field SHAPE@), the geometry
modelled by an opaque token. -/
structure Row where
  oid : Option Int
  shape : Option Nat
deriving DecidableEq, Repr

/-- A data source scan: the rows the cursor yields, and whether the cursor
raises an error after yielding them (an error in the middle of a scan is the
same as an error after the yielded prefix). -/
structure Source where
  rows : List Row
  failsMidScan : Bool
deriving DecidableEq, Repr

/-- How a method call returns: `ok` is the normal completion path (return
True / fall through), `fail` is the caught-error or early-return path (the
method prints or shows a message and returns False or None), `crash` is an
uncaught exception propagating out of the method. -/
inductive Outcome where
  | ok
  | fail
  | crash
deriving DecidableEq, Repr

/-- A stored record of the ArcGIS Pro navigator: the dict
`{'oid': oid, 'geometry': geometry, 'attributes': {'OID': oid}}`
built by `_load_features`. -/
structure Feature where
  oid : Int
  geometry : Option Nat
  attributes : List (String × Value)
deriving DecidableEq, Repr

/-- Lookup in a Python dict keyed by field name (`d.get(field)`):
first binding wins; keys are unique by construction of insertion. -/
def attrGet (attrs : List (String × Value)) (field : String) : Option Value :=
  match attrs with
  | [] => none
  | (k, v) :: rest => if k = field then some v else attrGet rest field

/-- Lookup in the Python dict `oid_map` (`oid in self.oid_map` /
`self.oid_map[oid]`). -/
def dictLookup (m : List (Int × Nat)) (k : Int) : Option Nat :=
  match m with
  | [] => none
  | (k2, v) :: rest => if k2 = k then some v else dictLookup rest k

/-- Python dict assignment `m[k] = v`: overwrite in place if the key exists,
otherwise append in insertion order. -/
def dictInsert (m : List (Int × Nat)) (k : Int) (v : Nat) : List (Int × Nat) :=
  match m with
  | [] => [(k, v)]
  | (k2, v2) :: rest =>
    if k2 = k then (k, v) :: rest else (k2, v2) :: dictInsert rest k v

/-- The mutable state of a `FeatureNavigator` instance: the ordered record
sequence `self.features`, the identifier index `self.oid_map`, and the cursor
`self.current_index`.  Every write of `current_index` in the source is
non-negative (Python modulo with a positive divisor, a validated index, or a
scan counter), so the cursor is carried as a natural number. -/
structure NavState where
  features : List Feature
  oid_map : List (Int × Nat)
  current_index : Nat
deriving DecidableEq, Repr

/-- The scan loop of `_load_features`:
`for i, row in enumerate(cursor): if oid is not None:
features.append(...); oid_map[oid] = i`.
Note the source stores the enumerate counter `i` in the map, counting skipped
rows as well. -/
def loadLoop : List Row → Nat → List Feature → List (Int × Nat) →
    List Feature × List (Int × Nat)
  | [], _, fs, m => (fs, m)
  | r :: rest, i, fs, m =>
    match r.oid with
    | some oid =>
        loadLoop rest (i + 1)
          (fs ++ [⟨oid, r.shape, [("OID", Value.intV oid)]⟩])
          (dictInsert m oid i)
    | none => loadLoop rest (i + 1) fs m

/-- `FeatureNavigator._load_features`.  The body resets `features` and
`oid_map`, runs the scan loop, raises ValueError when no record was stored,
and otherwise sets the cursor to 0; its own `except` clause catches any
exception (a cursor error mid-scan or the ValueError), prints, and resets
`features` — but not `oid_map` and not `current_index` — then returns
normally. -/
def load_features (s : NavState) (src : Source) : Outcome × NavState :=
  let scanned := loadLoop src.rows 0 [] []
  if src.failsMidScan then
    (Outcome.fail, { s with features := [], oid_map := scanned.2 })
  else if scanned.1.isEmpty then
    (Outcome.fail, { s with features := [], oid_map := scanned.2 })
  else
    (Outcome.ok, { features := scanned.1, oid_map := scanned.2, current_index := 0 })

/-- `FeatureNavigator.next_feature`: fail on an empty store, else advance the
cursor by one modulo the record count (the subsequent record access is always
in range because the new cursor is below the count). -/
def next_feature (s : NavState) : Outcome × NavState :=
  if s.features.isEmpty then (Outcome.fail, s)
  else
    (Outcome.ok,
      { s with current_index := (s.current_index + 1) % s.features.length })

/-- `FeatureNavigator.previous_feature`: Python computes
`(current_index - 1) % count` with floored modulo, which for a non-negative
cursor and positive count equals `(current_index + count - 1) % count`. -/
def previous_feature (s : NavState) : Outcome × NavState :=
  if s.features.isEmpty then (Outcome.fail, s)
  else
    (Outcome.ok,
      { s with current_index :=
          (s.current_index + s.features.length - 1) % s.features.length })

/-- `FeatureNavigator.go_to_oid`: fail when the identifier is not a key of
`oid_map`; otherwise assign the mapped value to the cursor and then read
`self.features[self.current_index]`, which raises an uncaught IndexError when
the mapped value is not below the record count. -/
def go_to_oid (s : NavState) (oid : Int) : Outcome × NavState :=
  match dictLookup s.oid_map oid with
  | none => (Outcome.fail, s)
  | some i =>
      let s2 : NavState := { s with current_index := i }
      if i < s2.features.length then (Outcome.ok, s2) else (Outcome.crash, s2)

/-- `FeatureNavigator.go_to_index`: fail when the argument is negative or not
below the record count, else set the cursor to it. -/
def go_to_index (s : NavState) (index : Int) : Outcome × NavState :=
  if index < 0 ∨ (s.features.length : Int) ≤ index then (Outcome.fail, s)
  else (Outcome.ok, { s with current_index := index.toNat })

/-- `FeatureNavigator.get_current_info`: None on an empty store, else the
record at the cursor — reading `self.features[self.current_index]`, which
raises an uncaught IndexError when the cursor is not below the count. -/
def get_current_info (s : NavState) : Outcome × Option Feature :=
  if s.features.isEmpty then (Outcome.ok, none)
  else
    match s.features.get? s.current_index with
    | some f => (Outcome.ok, some f)
    | none => (Outcome.crash, none)

/-- The loop of `filter_by_attribute`:
`for i, feature in enumerate(features): if attributes.get(field) == value:
matches.append(i)`.  The value argument is `none` when the Python caller
passes None, in which case Python `d.get(field) == None` is True exactly when
the field is absent (the stored values are never None). -/
def filterLoop : List Feature → Nat → String → Option Value → List Nat
  | [], _, _, _ => []
  | f :: rest, i, field, v =>
    if attrGet f.attributes field = v then i :: filterLoop rest (i + 1) field v
    else filterLoop rest (i + 1) field v

/-- `FeatureNavigator.filter_by_attribute`. -/
def filter_by_attribute (s : NavState) (field : String) (value : Option Value) :
    List Nat :=
  filterLoop s.features 0 field value

/-- `FeatureNavigator.jump_to_filtered`: run the filter; on a non-empty match
list delegate to `go_to_index` on its first element, else return False. -/
def jump_to_filtered (s : NavState) (field : String) (value : Option Value) :
    Outcome × NavState :=
  match filter_by_attribute s field value with
  | [] => (Outcome.fail, s)
  | i :: _ => go_to_index s (i : Int)

/-- A stored record of the ArcMap tool: the dict
`{'oid': row[0], 'shape': row[1]}` — no null check, the identifier is stored
as read. -/
structure AMRecord where
  oid : Option Int
  shape : Option Nat
deriving DecidableEq, Repr

/-- The mutable state of a `NavigationTool` instance. -/
structure AMState where
  feature_records : List AMRecord
  current_index : Nat
deriving DecidableEq, Repr

/-- `NavigationTool.load_features`: reset the record list, append every
scanned row (rows with a null identifier included), and on success reset the
cursor; its `except` clause only shows a message box — a cursor error
mid-scan leaves the partially appended records in place. -/
def am_load_features (s : AMState) (src : Source) : Outcome × AMState :=
  let fs := src.rows.map (fun r => AMRecord.mk r.oid r.shape)
  if src.failsMidScan then
    (Outcome.fail, { s with feature_records := fs })
  else if fs.isEmpty then
    (Outcome.fail, { s with feature_records := [] })
  else
    (Outcome.ok, { feature_records := fs, current_index := 0 })

/-- `NavigationTool.next_record`: fail on an empty list, else step forward,
wrapping from the last position to 0 by an explicit comparison. -/
def am_next_record (s : AMState) : Outcome × AMState :=
  if s.feature_records.isEmpty then (Outcome.fail, s)
  else
    (Outcome.ok,
      { s with current_index :=
          if s.current_index < s.feature_records.length - 1 then
            s.current_index + 1
          else 0 })

/-- The navigator state at construction, before the initial load. -/
def navInit : NavState := ⟨[], [], 0⟩

/-- The ArcMap tool state at construction, before the initial load. -/
def amInit : AMState := ⟨[], 0⟩

/-- A source whose first row has a null identifier and whose second row is a
valid record with identifier 7: the load succeeds storing one record, but the
enumerate counter written into `oid_map` is the scan index 1, not the stored
position 0. -/
def srcNullFirst : Source := ⟨[⟨none, some 0⟩, ⟨some 7, some 1⟩], false⟩

/-- A source that yields one valid row with identifier 3 and then raises
mid-scan. -/
def srcFailAfterOne : Source := ⟨[⟨some 3, some 0⟩], true⟩

/-- A source whose only row has a null identifier. -/
def srcNullOnly : Source := ⟨[⟨none, some 0⟩], false⟩

/-- The store-or-cursor invariant of the spec: the store is empty or the
cursor is a valid position below the record count. -/
def posInvariant (s : NavState) : Prop :=
  s.features = [] ∨ s.current_index < s.features.length

instance (s : NavState) : Decidable (posInvariant s) := by
  unfold posInvariant; infer_instance

/-- Claim C1.  Refuted on the code: a successful load over a source whose
null-identifier row precedes a valid row leaves `oid_map` mapping the stored
identifier 7 to the enumerate counter 1, while the record with identifier 7
sits at position 0 of a one-element `features` list — the index is not the
inverse of the sequence. -/
theorem c1_index_not_inverse_after_load :
    (load_features navInit srcNullFirst).fst = Outcome.ok ∧
    (load_features navInit srcNullFirst).snd.features.map Feature.oid = [7] ∧
    dictLookup (load_features navInit srcNullFirst).snd.oid_map 7 = some 1 := by
  decide

/-- Claim C2.  Refuted on the code: over `srcNullFirst` the record with
identifier 7 is loaded, yet `go_to_oid 7` raises an uncaught IndexError
(outcome `crash`) instead of succeeding, and `get_current_info` afterwards
raises as well instead of returning that record (the cursor points past the
end). -/
theorem c2_go_to_oid_crashes_on_loaded_id :
    (load_features navInit srcNullFirst).fst = Outcome.ok ∧
    (load_features navInit srcNullFirst).snd.features.map Feature.oid = [7] ∧
    (go_to_oid (load_features navInit srcNullFirst).snd 7).fst = Outcome.crash ∧
    get_current_info (go_to_oid (load_features navInit srcNullFirst).snd 7).snd
      = (Outcome.crash, none) := by
  decide

/-- Claim C3.  Refuted on the code: the state reached from a fresh navigator
by the successful load over `srcNullFirst` followed by `go_to_oid 7` has a
non-empty store and cursor 1 = count, violating the position invariant; the
crashing operation mutated the cursor before raising. -/
theorem c3_invariant_broken_by_go_to_oid :
    ¬ posInvariant (go_to_oid (load_features navInit srcNullFirst).snd 7).snd ∧
    (go_to_oid (load_features navInit srcNullFirst).snd 7).snd.current_index
      = 1 ∧
    (go_to_oid (load_features navInit srcNullFirst).snd 7).snd.features.length
      = 1 := by
  decide

/-- Claim C4.  Refuted on the code: after a scan that yields the valid row
with identifier 3 and then fails, the Pro loader leaves `features` empty but
keeps the stale index entry `oid_map[3] = 0`, and the ArcMap loader keeps the
partially appended record, so its count is 1, not 0. -/
theorem c4_failed_load_leaves_stale_data :
    (load_features navInit srcFailAfterOne).snd.features = [] ∧
    dictLookup (load_features navInit srcFailAfterOne).snd.oid_map 3
      = some 0 ∧
    (am_load_features amInit srcFailAfterOne).snd.feature_records.length
      = 1 := by
  decide

/-- The record the Pro scan loop appends for a row, when the identifier of
the row is not null. -/
def rowFeature (r : Row) : Option Feature :=
  r.oid.map (fun oid => ⟨oid, r.shape, [("OID", Value.intV oid)]⟩)

theorem loadLoop_features (rows : List Row) (i : Nat) (fs : List Feature)
    (m : List (Int × Nat)) :
    (loadLoop rows i fs m).1 = fs ++ rows.filterMap rowFeature := by
  induction rows generalizing i fs m with
  | nil => simp [loadLoop]
  | cons r rest ih =>
    cases h : r.oid with
    | none => simp [loadLoop, h, ih, rowFeature]
    | some oid => simp [loadLoop, h, ih, rowFeature]

theorem length_filterMap_rowFeature (rows : List Row) :
    (rows.filterMap rowFeature).length
      = (rows.filter (fun r => r.oid.isSome)).length := by
  induction rows with
  | nil => simp
  | cons r rest ih =>
    cases h : r.oid with
    | none => simp [rowFeature, h, ih]
    | some oid => simp [rowFeature, h, ih]

/-- The example state of the spec: a store loaded from three valid rows with
identifiers 10, 20, 30. -/
def sEx : NavState :=
  (load_features navInit
    ⟨[⟨some 10, some 0⟩, ⟨some 20, some 1⟩, ⟨some 30, some 2⟩], false⟩).snd

/-- Claim C5, counterexample: the ArcMap loader succeeds over a source whose
only row has a null identifier and stores that row, so its count is 1 while
the number of scanned rows with a non-null identifier is 0. -/
theorem c5_arcmap_stores_null_id_row :
    (am_load_features amInit srcNullOnly).fst = Outcome.ok ∧
    (am_load_features amInit srcNullOnly).snd.feature_records.length = 1 ∧
    (srcNullOnly.rows.filter (fun r => r.oid.isSome)).length = 0 ∧
    (am_load_features amInit srcNullOnly).snd.feature_records.length
      ≠ (srcNullOnly.rows.filter (fun r => r.oid.isSome)).length := by
  decide

/-- Claim C5 as amended: in the Pro loader every null-identifier row is
skipped and every other row is appended in scan order with an attribute map
seeded with the identifier, so the count equals the number of rows with a
non-null identifier; the ArcMap loader appends every scanned row, so after a
successful load its count equals the total number of scanned rows. -/
theorem c5_load_scan_shape (s : NavState) (t : AMState) (rows : List Row) :
    (load_features s ⟨rows, false⟩).snd.features = rows.filterMap rowFeature ∧
    (load_features s ⟨rows, false⟩).snd.features.length
      = (rows.filter (fun r => r.oid.isSome)).length ∧
    ((am_load_features t ⟨rows, false⟩).fst = Outcome.ok →
      (am_load_features t ⟨rows, false⟩).snd.feature_records.length
        = rows.length) := by
  have hfs : (loadLoop rows 0 [] []).1 = rows.filterMap rowFeature := by
    simpa using loadLoop_features rows 0 [] []
  have h1 : (load_features s ⟨rows, false⟩).snd.features
      = rows.filterMap rowFeature := by
    simp only [load_features]
    rw [hfs]
    by_cases he2 : rows.filterMap rowFeature = []
    · simp [he2]
    · simp [he2]
  refine ⟨h1, ?_, ?_⟩
  · rw [h1, length_filterMap_rowFeature]
  · intro hok
    unfold am_load_features at hok ⊢
    by_cases he : (rows.map (fun r => AMRecord.mk r.oid r.shape)).isEmpty
    · simp [he] at hok
    · simp [he]

/-- Witness for the amended C5 at a one-row source. -/
theorem c5_load_scan_shape_witness :
    (am_load_features amInit ⟨[⟨some 1, some 0⟩], false⟩).snd.feature_records.length
      = [(⟨some 1, some 0⟩ : Row)].length :=
  (c5_load_scan_shape navInit amInit [⟨some 1, some 0⟩]).2.2 (by decide)

/-- Claim C7: `go_to_index` succeeds exactly when the argument lies in
`[0, count)`; on failure the state is returned unchanged; on success the
cursor equals the argument and the record sequence and index are untouched. -/
theorem c7_go_to_index_range (s : NavState) (i : Int) :
    ((go_to_index s i).fst = Outcome.ok
        ↔ 0 ≤ i ∧ i < (s.features.length : Int)) ∧
    ((go_to_index s i).fst = Outcome.fail → (go_to_index s i).snd = s) ∧
    ((go_to_index s i).fst = Outcome.ok →
      ((go_to_index s i).snd.current_index : Int) = i ∧
      (go_to_index s i).snd.features = s.features ∧
      (go_to_index s i).snd.oid_map = s.oid_map) := by
  unfold go_to_index
  split
  case isTrue h =>
    refine ⟨?_, ?_, ?_⟩
    · constructor
      · intro hk; simp at hk
      · intro hk; exfalso; omega
    · intro _; rfl
    · intro hk; simp at hk
  case isFalse h =>
    push_neg at h
    refine ⟨?_, ?_, ?_⟩
    · constructor
      · intro _; omega
      · intro _; rfl
    · intro hk; simp at hk
    · intro _
      refine ⟨?_, rfl, rfl⟩
      simpa using Int.toNat_of_nonneg h.1

/-- Witness for C7 at the example store and index 1. -/
theorem c7_go_to_index_range_witness :
    ((go_to_index sEx 1).snd.current_index : Int) = 1 ∧
    (go_to_index sEx 1).snd.features = sEx.features ∧
    (go_to_index sEx 1).snd.oid_map = sEx.oid_map :=
  (c7_go_to_index_range sEx 1).2.2 (by decide)

/-- The source of the example of the spec: three valid rows with identifiers
10, 20, 30. -/
def srcEx : Source :=
  ⟨[⟨some 10, some 0⟩, ⟨some 20, some 1⟩, ⟨some 30, some 2⟩], false⟩

/-- The ArcMap tool state after loading the example source. -/
def amEx : AMState := (am_load_features amInit srcEx).snd

/-- The state after n successive `next_feature` calls. -/
def iterNext : Nat → NavState → NavState
  | 0, s => s
  | n + 1, s => iterNext n (next_feature s).snd

/-- The state after n successive `am_next_record` calls. -/
def iterAmNext : Nat → AMState → AMState
  | 0, s => s
  | n + 1, s => iterAmNext n (am_next_record s).snd

theorem next_feature_snd (s : NavState) (h : s.features ≠ []) :
    (next_feature s).fst = Outcome.ok ∧
    (next_feature s).snd
      = { s with current_index :=
            (s.current_index + 1) % s.features.length } := by
  rw [next_feature, if_neg (by simp [h])]
  exact ⟨rfl, rfl⟩

theorem am_next_record_snd (t : AMState) (ht : t.feature_records ≠ [])
    (htp : t.current_index < t.feature_records.length) :
    (am_next_record t).fst = Outcome.ok ∧
    (am_next_record t).snd
      = { t with current_index :=
            (t.current_index + 1) % t.feature_records.length } := by
  have hlen : 0 < t.feature_records.length := List.length_pos.mpr ht
  rw [am_next_record, if_neg (by simp [ht])]
  refine ⟨rfl, ?_⟩
  by_cases hc : t.current_index < t.feature_records.length - 1
  · rw [if_pos hc, Nat.mod_eq_of_lt (by omega)]
  · rw [if_neg hc]
    have h1 : t.current_index + 1 = t.feature_records.length := by omega
    rw [h1, Nat.mod_self]

theorem iterNext_spec (n : Nat) : ∀ s : NavState, s.features ≠ [] →
    s.current_index < s.features.length →
    (iterNext n s).features = s.features ∧
    (iterNext n s).current_index
      = (s.current_index + n) % s.features.length := by
  induction n with
  | zero =>
    intro s h hp
    exact ⟨rfl, (Nat.mod_eq_of_lt hp).symm⟩
  | succ n ih =>
    intro s h hp
    have hlen : 0 < s.features.length := List.length_pos.mpr h
    have hstep := (next_feature_snd s h).2
    have ih2 := ih (next_feature s).snd (by rw [hstep]; exact h)
      (by rw [hstep]; exact Nat.mod_lt _ hlen)
    rw [hstep] at ih2
    rw [iterNext, hstep]
    refine ⟨ih2.1, ?_⟩
    rw [ih2.2]
    show ((s.current_index + 1) % s.features.length + n) % s.features.length
      = _
    rw [Nat.mod_add_mod]
    congr 1
    omega

theorem iterAmNext_spec (n : Nat) : ∀ t : AMState, t.feature_records ≠ [] →
    t.current_index < t.feature_records.length →
    (iterAmNext n t).feature_records = t.feature_records ∧
    (iterAmNext n t).current_index
      = (t.current_index + n) % t.feature_records.length := by
  induction n with
  | zero =>
    intro t ht htp
    exact ⟨rfl, (Nat.mod_eq_of_lt htp).symm⟩
  | succ n ih =>
    intro t ht htp
    have hlen : 0 < t.feature_records.length := List.length_pos.mpr ht
    have hstep := (am_next_record_snd t ht htp).2
    have ih2 := ih (am_next_record t).snd (by rw [hstep]; exact ht)
      (by rw [hstep]; exact Nat.mod_lt _ hlen)
    rw [hstep] at ih2
    rw [iterAmNext, hstep]
    refine ⟨ih2.1, ?_⟩
    rw [ih2.2]
    show ((t.current_index + 1) % t.feature_records.length + n)
        % t.feature_records.length = _
    rw [Nat.mod_add_mod]
    congr 1
    omega

/-- Claim C6: on a non-empty store each successful `next` advances the cursor
to `(cursor + 1) mod count` (in both implementations, the ArcMap comparison
form included), and calling `next` count-many times from any valid cursor
position returns the cursor to its starting position. -/
theorem c6_next_ring_closure (s : NavState) (t : AMState)
    (h : s.features ≠ []) (hp : s.current_index < s.features.length)
    (ht : t.feature_records ≠ [])
    (htp : t.current_index < t.feature_records.length) :
    (next_feature s).fst = Outcome.ok ∧
    (next_feature s).snd.current_index
      = (s.current_index + 1) % s.features.length ∧
    (next_feature s).snd.features = s.features ∧
    (iterNext s.features.length s).features = s.features ∧
    (iterNext s.features.length s).current_index = s.current_index ∧
    (am_next_record t).fst = Outcome.ok ∧
    (am_next_record t).snd.current_index
      = (t.current_index + 1) % t.feature_records.length ∧
    (iterAmNext t.feature_records.length t).current_index
      = t.current_index := by
  have hstep := next_feature_snd s h
  have hastep := am_next_record_snd t ht htp
  have hiter := iterNext_spec s.features.length s h hp
  have haiter := iterAmNext_spec t.feature_records.length t ht htp
  refine ⟨hstep.1, by rw [hstep.2], by rw [hstep.2], hiter.1, ?_,
    hastep.1, by rw [hastep.2], ?_⟩
  · rw [hiter.2, Nat.add_mod_right, Nat.mod_eq_of_lt hp]
  · rw [haiter.2, Nat.add_mod_right, Nat.mod_eq_of_lt htp]

/-- Witness for C6 at the example stores of three records. -/
theorem c6_next_ring_closure_witness :
    (iterNext sEx.features.length sEx).current_index = sEx.current_index ∧
    (iterAmNext amEx.feature_records.length amEx).current_index
      = amEx.current_index := by
  have hc := c6_next_ring_closure sEx amEx (by decide) (by decide)
    (by decide) (by decide)
  exact ⟨hc.2.2.2.2.1, hc.2.2.2.2.2.2.2⟩

theorem filterLoop_mem (field : String) (v : Option Value) :
    ∀ (fs : List Feature) (i0 j : Nat),
      j ∈ filterLoop fs i0 field v ↔
        ∃ k f, j = i0 + k ∧ fs.get? k = some f ∧
          attrGet f.attributes field = v := by
  intro fs
  induction fs with
  | nil => intro i0 j; simp [filterLoop]
  | cons f rest ih =>
    intro i0 j
    by_cases hm : attrGet f.attributes field = v
    · simp only [filterLoop, if_pos hm, List.mem_cons, ih]
      constructor
      · rintro (rfl | ⟨k, g, rfl, hg, hgm⟩)
        · exact ⟨0, f, by omega, by simp, hm⟩
        · exact ⟨k + 1, g, by omega, by simpa using hg, hgm⟩
      · rintro ⟨k, g, rfl, hg, hgm⟩
        cases k with
        | zero => left; omega
        | succ k =>
            right
            exact ⟨k, g, by omega, by simpa using hg, hgm⟩
    · simp only [filterLoop, if_neg hm, ih]
      constructor
      · rintro ⟨k, g, rfl, hg, hgm⟩
        exact ⟨k + 1, g, by omega, by simpa using hg, hgm⟩
      · rintro ⟨k, g, rfl, hg, hgm⟩
        cases k with
        | zero =>
            exfalso
            simp at hg
            exact hm (hg ▸ hgm)
        | succ k =>
            exact ⟨k, g, by omega, by simpa using hg, hgm⟩

theorem filterLoop_lb (field : String) (v : Option Value) :
    ∀ (fs : List Feature) (i0 j : Nat),
      j ∈ filterLoop fs i0 field v → i0 ≤ j := by
  intro fs i0 j hj
  rcases (filterLoop_mem field v fs i0 j).mp hj with ⟨k, _, rfl, _, _⟩
  omega

theorem filterLoop_sorted (field : String) (v : Option Value) :
    ∀ (fs : List Feature) (i0 : Nat),
      List.Sorted (· < ·) (filterLoop fs i0 field v) := by
  intro fs
  induction fs with
  | nil => intro i0; simp [filterLoop]
  | cons f rest ih =>
    intro i0
    by_cases hm : attrGet f.attributes field = v
    · simp only [filterLoop, if_pos hm]
      refine List.sorted_cons.mpr ⟨?_, ih (i0 + 1)⟩
      intro b hb
      have := filterLoop_lb field v rest (i0 + 1) b hb
      omega
    · simp only [filterLoop, if_neg hm]
      exact ih (i0 + 1)

theorem filterLoop_eq_nil (field : String) (v : Option Value) :
    ∀ (fs : List Feature), (∀ f ∈ fs, attrGet f.attributes field ≠ v) →
      ∀ i0 : Nat, filterLoop fs i0 field v = [] := by
  intro fs
  induction fs with
  | nil => intro _ i0; simp [filterLoop]
  | cons f rest ih =>
    intro h i0
    simp only [filterLoop, if_neg (h f (by simp))]
    exact ih (fun g hg => h g (by simp [hg])) (i0 + 1)

/-- The state sFilterCE: a one-record store whose record carries only the
identifier field, as every loaded record does. -/
def sFilterCE : NavState :=
  ⟨[⟨2, none, [("OID", Value.intV 2)]⟩], [(2, 0)], 0⟩

/-- Claim C8, counterexample: calling the filter with the Python value None
returns position 0 even though the record there does not contain the field
COLOR at all — an absent field matches None instead of being a non-match. -/
theorem c8_none_matches_absent_field :
    filter_by_attribute sFilterCE "COLOR" none = [0] ∧
    sFilterCE.features.get? 0 = some ⟨2, none, [("OID", Value.intV 2)]⟩ ∧
    attrGet [("OID", Value.intV 2)] "COLOR" = none := by
  decide

/-- Claim C8 as amended: for every store state, field name, and value other
than None, the filter returns positions in strictly ascending store order,
and a position is returned exactly when the attribute map of the record
there contains the field with a value exactly equal to the given one; a
record lacking the field is a non-match.  (When the caller passes None, a
record lacking the field matches, because Python `d.get(field) == None`
holds then.) -/
theorem c8_filter_characterization (s : NavState) (field : String)
    (u : Value) :
    List.Sorted (· < ·) (filter_by_attribute s field (some u)) ∧
    ∀ j : Nat, j ∈ filter_by_attribute s field (some u) ↔
      ∃ f, s.features.get? j = some f ∧
        attrGet f.attributes field = some u := by
  constructor
  · exact filterLoop_sorted field (some u) s.features 0
  · intro j
    rw [filter_by_attribute, filterLoop_mem]
    constructor
    · rintro ⟨k, f, rfl, hf, hm⟩
      exact ⟨f, by simpa using hf, hm⟩
    · rintro ⟨f, hf, hm⟩
      exact ⟨j, f, by omega, hf, hm⟩

/-- Witness for the amended C8 at the example store, field OID, value 30. -/
theorem c8_filter_characterization_witness :
    List.Sorted (· < ·)
      (filter_by_attribute sEx "OID" (some (Value.intV 30))) ∧
    ∀ j : Nat, j ∈ filter_by_attribute sEx "OID" (some (Value.intV 30)) ↔
      ∃ f, sEx.features.get? j = some f ∧
        attrGet f.attributes "OID" = some (Value.intV 30) :=
  c8_filter_characterization sEx "OID" (Value.intV 30)

/-- Claim C9: `jump_to_filtered` with an empty match list returns False and
leaves the state unchanged, and with a non-empty match list delegates to
`go_to_index` on its first element, which is the lowest matching position. -/
theorem c9_jump_delegates_to_first (s : NavState) (field : String)
    (v : Option Value) :
    (filter_by_attribute s field v = [] →
      jump_to_filtered s field v = (Outcome.fail, s)) ∧
    (∀ j rest, filter_by_attribute s field v = j :: rest →
      jump_to_filtered s field v = go_to_index s (j : Int) ∧
      ∀ k ∈ filter_by_attribute s field v, j ≤ k) := by
  constructor
  · intro h
    rw [jump_to_filtered, h]
  · intro j rest h
    refine ⟨by rw [jump_to_filtered, h], ?_⟩
    intro k hk
    have hs := filterLoop_sorted field v s.features 0
    rw [show filterLoop s.features 0 field v
        = filter_by_attribute s field v from rfl, h] at hs
    rw [h] at hk
    rcases List.mem_cons.mp hk with rfl | hk2
    · exact le_refl k
    · exact le_of_lt ((List.sorted_cons.mp hs).1 k hk2)

/-- Witness for C9 at the example store: the only match of OID = 30 is
position 2 and the jump delegates there. -/
theorem c9_jump_delegates_to_first_witness :
    jump_to_filtered sEx "OID" (some (Value.intV 30))
      = go_to_index sEx ((2 : Nat) : Int) ∧
    ∀ k ∈ filter_by_attribute sEx "OID" (some (Value.intV 30)), 2 ≤ k :=
  (c9_jump_delegates_to_first sEx "OID" (some (Value.intV 30))).2 2 []
    (by decide)

theorem mem_load_attrs (s : NavState) (src : Source) (f : Feature)
    (hf : f ∈ (load_features s src).snd.features) :
    f.attributes = [("OID", Value.intV f.oid)] := by
  have hfs : (loadLoop src.rows 0 [] []).1 = src.rows.filterMap rowFeature := by
    simpa using loadLoop_features src.rows 0 [] []
  simp only [load_features] at hf
  split at hf
  · simp at hf
  · split at hf
    · simp at hf
    · simp only [hfs] at hf
      rcases List.mem_filterMap.mp hf with ⟨r, _, hrf⟩
      cases ho : r.oid with
      | none => rw [rowFeature, ho] at hrf; simp at hrf
      | some oid =>
          rw [rowFeature, ho] at hrf
          simp at hrf
          subst hrf
          rfl

/-- Claim C10, counterexample: after a successful load the only field any
record carries is OID, yet the filter over a different field name with the
Python value None returns every position, and the jump succeeds and moves
the cursor there. -/
theorem c10_none_value_matches_everything :
    (load_features navInit ⟨[⟨some 1, some 0⟩], false⟩).fst = Outcome.ok ∧
    filter_by_attribute
      (load_features navInit ⟨[⟨some 1, some 0⟩], false⟩).snd "X" none
      = [0] ∧
    (jump_to_filtered
      (load_features navInit ⟨[⟨some 1, some 0⟩], false⟩).snd "X" none).fst
      = Outcome.ok := by
  decide

/-- Claim C10 as amended: for every successfully loaded store, every field
name other than OID, and every value other than None, the filter returns the
empty list and `jump_to_filtered` returns False without moving the cursor.
(With the value None the filter matches every loaded record, since the
attribute maps of loaded records carry only the OID field.) -/
theorem c10_filter_other_field_empty (s : NavState) (src : Source)
    (field : String) (u : Value)
    (_hok : (load_features s src).fst = Outcome.ok) (hfield : field ≠ "OID") :
    filter_by_attribute (load_features s src).snd field (some u) = [] ∧
    jump_to_filtered (load_features s src).snd field (some u)
      = (Outcome.fail, (load_features s src).snd) := by
  have hnil : filter_by_attribute (load_features s src).snd field (some u)
      = [] := by
    rw [filter_by_attribute]
    refine filterLoop_eq_nil field (some u) _ ?_ 0
    intro f hfmem
    rw [mem_load_attrs s src f hfmem, attrGet]
    rw [if_neg (fun hcontra => hfield hcontra.symm)]
    rw [attrGet]
    exact fun hcontra => Option.noConfusion hcontra
  exact ⟨hnil, by rw [jump_to_filtered, hnil]⟩

/-- Witness for the amended C10: loading the example source and filtering on
the field COLOR with value 5 finds nothing and the jump fails in place. -/
theorem c10_filter_other_field_empty_witness :
    filter_by_attribute (load_features navInit srcEx).snd "COLOR"
      (some (Value.intV 5)) = [] ∧
    jump_to_filtered (load_features navInit srcEx).snd "COLOR"
      (some (Value.intV 5))
      = (Outcome.fail, (load_features navInit srcEx).snd) :=
  c10_filter_other_field_empty navInit srcEx "COLOR" (Value.intV 5)
    (by decide) (by decide)
